import Mathlib

/-!
Shallow embedding of `src/ansi_color.hpp` (namespace `ansi_escape`), an ANSI
escape-sequence construction and conditional-emission library.

Bytes are modelled as `Char` lists (all characters involved are ASCII, and C
`char` comparisons are integer comparisons on the character code, rendered here
through `Char.toNat`).  An `AnsiLiteral<N>` stores a zero-initialized
`std::array<char, N>` whose written prefix is the escape sequence followed by a
NUL sentinel; `to_view()` reads the buffer with C-string semantics (up to the
first NUL).  We model the literal by the sequence of bytes actually written
(`make_escape` below); the untouched zero tail of the array is never observable
through `to_view`/`c_str` and is omitted.  `detail::make_escape<N>` performs its
writes with unchecked `std::array::operator[]`, so we additionally record the
number of array cells it touches (`make_escape_writes`) in order to reason about
whether the writes stay inside the `N`-byte array.
-/

namespace AnsiEscape

/-- The escape byte `'\x1b'` (0x1B). -/
def escChar : Char := Char.ofNat 0x1b

/-- The NUL sentinel `'\0'`. -/
def nulChar : Char := Char.ofNat 0

/-- The BEL terminator `'\x07'` used by OSC sequences. -/
def belChar : Char := Char.ofNat 0x07

/-- Models `detail::make_escape<N>(Introducer, Finisher, write)`: the sequence of
bytes written into the buffer, in order: `'\x1b'`, the introducer, the payload
bytes produced by the `write` callback, the finisher, and the `'\0'` sentinel.
The zero-initialized tail of the `std::array<char, N>` beyond the last write is
not part of the written sequence (and is unobservable through `to_view`). -/
def make_escape (intro fin : Char) (payload : List Char) : List Char :=
  escChar :: intro :: (payload ++ [fin, nulChar])

/-- The number of `std::array` cells `detail::make_escape` writes for a given
payload: indices `0` (`'\x1b'`), `1` (introducer), `2 .. payload+1` (payload),
`payload+2` (finisher) and `payload+3` (`'\0'`). -/
def make_escape_writes (payload : List Char) : Nat :=
  payload.length + 4

/-- Whether every write of `detail::make_escape<N>` is inside the
`std::array<char, N>` buffer (largest index written is `payload.length + 3`). -/
def make_escape_in_bounds (N : Nat) (payload : List Char) : Bool :=
  make_escape_writes payload ≤ N

/-- Models `AnsiLiteral::to_view()`: `value.data()` is read with C-string
semantics, i.e. the bytes up to (excluding) the first NUL. -/
def to_view (bytes : List Char) : List Char :=
  bytes.takeWhile (fun c => c ≠ nulChar)

/-- The `while (v >= 10) { v /= 10; ++d; }` loop of the `digits` lambda inside
`detail::int_to_chars`, with an explicit fuel bound (the loop strictly shrinks
`v`, so `v` itself bounds the number of iterations). -/
def digitsCountAux : Nat → Nat → Nat
  | 0, _ => 1
  | fuel + 1, v => if v ≥ 10 then digitsCountAux fuel (v / 10) + 1 else 1

/-- Models the `digits` lambda inside `detail::int_to_chars`: the number of
decimal digits of `v` (`1` for `v < 10`). -/
def digitsCount (v : Nat) : Nat :=
  digitsCountAux v v

/-- The backwards digit-writing loop of `detail::int_to_chars`: cell `i` (for
`i = len-1` down to `0`) receives `'0' + value % 10` and `value /= 10`; read
front-to-back this is the list below. -/
def intToCharsAux : Nat → Nat → List Char
  | 0, _ => []
  | len + 1, v => intToCharsAux len (v / 10) ++ [Char.ofNat (48 + v % 10)]

/-- Models `detail::int_to_chars(value, out)`: writes the decimal digits of
`value` and returns them (the C function returns the length; the written
characters are what we track).  Only ever called with non-negative values
(0–255 and fixed SGR codes), so `Nat` is the faithful domain. -/
def int_to_chars (v : Nat) : List Char :=
  intToCharsAux (digitsCount v) v

/-- Models `csi::gen_ansi<N>(v, F)`: `make_escape('[', F, write int_to_chars v)`.
The `assert` on the set of allowed finishers holds at every call site in the
library (`'m'` and `'J'` only). -/
def gen_ansi (v : Nat) (F : Char) : List Char :=
  make_escape '[' F (int_to_chars v)

/-- Models `csi::sgr::Code(v)`: the SGR escape literal `ESC [ v m`. -/
def Code (v : Nat) : List Char :=
  gen_ansi v 'm'

/-- Models `csi::sgr::target`: `foreground = 38`, `background = 48`. -/
inductive target | foreground | background
deriving DecidableEq

/-- The numeric value of a `target` (`static_cast<int>(t)`). -/
def target.val : target → Nat
  | .foreground => 38
  | .background => 48

/-- `Color4::base_c = static_cast<int>(t) - 8` (30 for text, 40 for fill). -/
def base_c (t : target) : Nat := t.val - 8

/-- `Color4::bright_c = base_c + 60` (90 for text, 100 for fill). -/
def bright_c (t : target) : Nat := base_c t + 60

namespace Color4

/-- `Color4<t>::preset = Code(base_c + 9)`. -/
def preset (t : target) : List Char := Code (base_c t + 9)

/-- `Color4<t>::black = Code(base_c + 0)`. -/
def black (t : target) : List Char := Code (base_c t + 0)

/-- `Color4<t>::red = Code(base_c + 1)`. -/
def red (t : target) : List Char := Code (base_c t + 1)

/-- `Color4<t>::green = Code(base_c + 2)`. -/
def green (t : target) : List Char := Code (base_c t + 2)

/-- `Color4<t>::yellow = Code(base_c + 3)`. -/
def yellow (t : target) : List Char := Code (base_c t + 3)

/-- `Color4<t>::blue = Code(base_c + 4)`. -/
def blue (t : target) : List Char := Code (base_c t + 4)

/-- `Color4<t>::magenta = Code(base_c + 5)`. -/
def magenta (t : target) : List Char := Code (base_c t + 5)

/-- `Color4<t>::cyan = Code(base_c + 6)`. -/
def cyan (t : target) : List Char := Code (base_c t + 6)

/-- `Color4<t>::white = Code(base_c + 7)`. -/
def white (t : target) : List Char := Code (base_c t + 7)

/-- `Color4<t>::bright_black = Code(bright_c + 0)`. -/
def bright_black (t : target) : List Char := Code (bright_c t + 0)

/-- `Color4<t>::bright_red = Code(bright_c + 1)`. -/
def bright_red (t : target) : List Char := Code (bright_c t + 1)

/-- `Color4<t>::bright_green = Code(bright_c + 2)`. -/
def bright_green (t : target) : List Char := Code (bright_c t + 2)

/-- `Color4<t>::bright_yellow = Code(bright_c + 3)`. -/
def bright_yellow (t : target) : List Char := Code (bright_c t + 3)

/-- `Color4<t>::bright_blue = Code(bright_c + 4)`. -/
def bright_blue (t : target) : List Char := Code (bright_c t + 4)

/-- `Color4<t>::bright_magenta = Code(bright_c + 5)`. -/
def bright_magenta (t : target) : List Char := Code (bright_c t + 5)

/-- `Color4<t>::bright_cyan = Code(bright_c + 6)`. -/
def bright_cyan (t : target) : List Char := Code (bright_c t + 6)

/-- `Color4<t>::bright_white = Code(bright_c + 7)`. -/
def bright_white (t : target) : List Char := Code (bright_c t + 7)

end Color4

namespace Color8

/-- Models `Color8<t>::gen_ansi(i)`: `make_escape('[', 'm', ...)` writing
`int_to_chars(t)` (38 or 48), then `';' '5' ';'`, then `int_to_chars(i)`. -/
def gen_ansi (t : target) (i : Nat) : List Char :=
  make_escape '[' 'm' (int_to_chars t.val ++ [';', '5', ';'] ++ int_to_chars i)

/-- Models `Color8<t>::palette_lit256`: the 256-entry table generated at compile
time by expanding `gen_ansi(Is)...` over `index_sequence<0..255>`. -/
def palette_lit256 (t : target) : List (List Char) :=
  (List.range 256).map (gen_ansi t)

/-- Models the constructor `Color8(uint8_t i)`: selects `palette_lit256[i]`.
The C argument is `uint8_t`, so the index is always in `[0, 255]`; the theorems
carry that bound as an hypothesis. -/
def mk (t : target) (i : Nat) : List Char :=
  (palette_lit256 t).getD i []

end Color8

namespace Color24

/-- Models `Color24<t>::gen_ansi(red, green, blue)`: `make_escape('[', 'm', ...)`
writing `int_to_chars(t)` (38 or 48), `';' '2' ';'`, then the three channels
separated by `';'`. -/
def gen_ansi (t : target) (red green blue : Nat) : List Char :=
  make_escape '[' 'm'
    (int_to_chars t.val ++ [';', '2', ';'] ++
      int_to_chars red ++ [';'] ++ int_to_chars green ++ [';'] ++ int_to_chars blue)

/-- Models the `hex_digit` lambda inside `Color24::parse`.  C `char` comparisons
are integer comparisons on the character code: `'0'`=48, `'9'`=57, `'a'`=97,
`'f'`=102, `'A'`=65, `'F'`=70.  Any non-hex character falls through to `0`. -/
def hex_digit (c : Char) : Nat :=
  if 48 ≤ c.toNat ∧ c.toNat ≤ 57 then c.toNat - 48
  else if 97 ≤ c.toNat ∧ c.toNat ≤ 102 then 10 + (c.toNat - 97)
  else if 65 ≤ c.toNat ∧ c.toNat ≤ 70 then 10 + (c.toNat - 65)
  else 0

/-- Models `Color24::parse(str, len)` up to the RGB triple it passes to the
`(uint8_t, uint8_t, uint8_t)` constructor.  The two `assert`s (missing `'#'`
prefix; length other than 7 or 4) are the defined fatal error behavior and are
modelled as `none`.  The `static_cast<uint8_t>` on each channel is the `% 256`
(the computed values are in fact always `≤ 255`). -/
def parse (s : List Char) : Option (Nat × Nat × Nat) :=
  if s.getD 0 nulChar ≠ '#' then none
  else if s.length = 7 then
    some ((hex_digit (s.getD 1 nulChar) * 16 + hex_digit (s.getD 2 nulChar)) % 256,
          (hex_digit (s.getD 3 nulChar) * 16 + hex_digit (s.getD 4 nulChar)) % 256,
          (hex_digit (s.getD 5 nulChar) * 16 + hex_digit (s.getD 6 nulChar)) % 256)
  else if s.length = 4 then
    some ((hex_digit (s.getD 1 nulChar) * 17) % 256,
          (hex_digit (s.getD 2 nulChar) * 17) % 256,
          (hex_digit (s.getD 3 nulChar) * 17) % 256)
  else none

/-- The runtime constructor `explicit Color24(std::string_view hex)`:
`parse(hex.data(), hex.size())`, then the `(r, g, b)` constructor, i.e.
`gen_ansi`.  Assertion failure inside `parse` propagates as `none`. -/
def ofHex (t : target) (s : List Char) : Option (List Char) :=
  (parse s).map (fun x => gen_ansi t x.1 x.2.1 x.2.2)

/-- The compile-time constructor `consteval Color24(const char (&hex)[L])` with
`requires (L == 8 || L == 5)`: the argument is the character array of a string
literal including its trailing `'\0'`; it calls `parse(hex, L - 1)`.  A length
violating the `requires` clause has no constructor (modelled as `none`). -/
def ofHexLit (t : target) (arr : List Char) : Option (List Char) :=
  if arr.length = 8 ∨ arr.length = 5 then
    (parse (arr.take (arr.length - 1))).map (fun x => gen_ansi t x.1 x.2.1 x.2.2)
  else none

end Color24

/-- `csi::clear = gen_ansi<8>(2, 'J')`, the erase-display sequence. -/
def clear : List Char := gen_ansi 2 'J'

namespace style

/-- `sgr::style::bold = Code{1}`. -/
def bold : List Char := Code 1

/-- `sgr::style::faint = Code{2}`. -/
def faint : List Char := Code 2

/-- `sgr::style::italic = Code{3}`. -/
def italic : List Char := Code 3

/-- `sgr::style::underline = Code{4}`. -/
def underline : List Char := Code 4

/-- `sgr::style::blink = Code{5}`. -/
def blink : List Char := Code 5

/-- `sgr::style::reverse = Code{7}`. -/
def reverse : List Char := Code 7

/-- `sgr::style::hidden = Code{8}`. -/
def hidden : List Char := Code 8

/-- `sgr::style::strike = Code{9}`. -/
def strike : List Char := Code 9

end style

/-- `sgr::reset = Code{0}`. -/
def reset : List Char := Code 0

namespace Title

/-- Models `osc::Title<N>::gen_ansi(t)`: `make_escape<N>(']', '\x07', ...)`
writing `'2' ';'` followed by every byte of the payload `t` — with no length
check against `N` inside the write callback. -/
def gen_ansi (txt : List Char) : List Char :=
  make_escape ']' belChar ('2' :: ';' :: txt)

/-- The compile-time constructor's constraint `requires (L < N - 4)`, where `L`
is the size of the string-literal array (text length + 1 for `'\0'`). -/
def consteval_ok (N L : Nat) : Bool :=
  decide (L < N - 4)

/-- Whether the runtime constructor `explicit Title(std::string_view txt)`
keeps every buffer write of `gen_ansi` inside the `std::array<char, N>`:
it performs no check of its own, so this is just `make_escape_in_bounds`
for the payload `'2' ';' txt`. -/
def runtime_in_bounds (N : Nat) (txt : List Char) : Bool :=
  make_escape_in_bounds N ('2' :: ';' :: txt)

end Title

namespace tty

/-- `tty::policy`. -/
inductive policy | force | never | auto_
deriving DecidableEq

/-- `tty::state`: per-thread policies and cached `isatty` flags.  The two
`is_tty` booleans come from the environment (`isatty(fileno(...))`) and are
arbitrary here. -/
structure state where
  stdout_policy : policy
  stderr_policy : policy
  stream_policy : policy
  stdout_is_tty : Bool
  stderr_is_tty : Bool

/-- The possible identities of the destination `std::ostream&`: `&os` equal to
`&std::cout`, to `&std::cerr`, or neither. -/
inductive ostream | cout | cerr | other
deriving DecidableEq

/-- Models the `tty::emit_policy` lambda:
`p == policy::force || (p == policy::auto_ && is_tty)`. -/
def emit_policy (p : policy) (is_tty : Bool) : Bool :=
  p = policy.force ∨ (p = policy.auto_ ∧ is_tty)

/-- Models `tty::emit_ansi(std::ostream& os)`: `std::cout` uses
`(stdout_policy, stdout_is_tty)`, `std::cerr` uses
`(stderr_policy, stderr_is_tty)`, any other stream uses
`(stream_policy, false)`. -/
def emit_ansi (st : state) (os : ostream) : Bool :=
  match os with
  | .cout => emit_policy st.stdout_policy st.stdout_is_tty
  | .cerr => emit_policy st.stderr_policy st.stderr_is_tty
  | .other => emit_policy st.stream_policy false

end tty

/-- Models `operator<<(std::ostream&, AnsiObjectT&&)`: the bytes the destination
receives — `ao.to_view()` when `tty::emit_ansi(os)` holds, nothing otherwise. -/
def stream_insert (st : tty.state) (os : tty.ostream) (ao : List Char) : List Char :=
  if tty.emit_ansi st os then to_view ao else []

end AnsiEscape

/-! ### Helper lemmas -/

namespace AnsiEscape

set_option maxRecDepth 4000 in
/-- `detail::int_to_chars` renders every value in `[0, 255]` exactly as the
standard decimal representation (no leading zeros, `0 ↦ "0"`). -/
theorem int_to_chars_eq_repr : ∀ v < 256, int_to_chars v = (Nat.repr v).data := by
  decide

/-- The `(uint8_t)` casts in `Color24::parse` never truncate: the `hex_digit`
lambda always returns a value below 16. -/
theorem hex_digit_lt_16 (c : Char) : Color24.hex_digit c < 16 := by
  unfold Color24.hex_digit
  split_ifs <;> omega

/-- The 256-entry compile-time table of `Color8` agrees with on-demand
formatting at every index. -/
theorem color8_palette_sound (t : target) (i : Nat) (h : i < 256) :
    Color8.mk t i = Color8.gen_ansi t i := by
  unfold Color8.mk Color8.palette_lit256
  rw [List.getD_eq_getElem _ _ (by simpa using h)]
  simp [h]

end AnsiEscape

/-! ### Claims -/

namespace AnsiEscape

set_option maxRecDepth 4000 in
/-- C1: the claim says every dynamically constructed `osc::Title` has its
payload length checked against the fixed `N = 128` buffer and oversized
payloads are rejected or truncated, so construction never writes past the
buffer.  The code violates this: the runtime `std::string_view` constructor
forwards to `gen_ansi` with no length check, so a 123-character title makes
`make_escape` touch 129 cells of the 128-byte `std::array` (out-of-bounds
write), while the compile-time constructor rejects the same length through
`requires (L < N - 4)` (L = 124 for a 123-character literal).  The last
conjunct shows no truncation happens on the runtime path: the written sequence
always contains every payload byte. -/
theorem C1_title_runtime_overflow :
    Title.runtime_in_bounds 128 (List.replicate 123 'a') = false
  ∧ make_escape_writes ('2' :: ';' :: List.replicate 123 'a') = 129
  ∧ Title.consteval_ok 128 124 = false
  ∧ (∀ txt : List Char, (Title.gen_ansi txt).length = txt.length + 6) := by
  refine ⟨by decide, by decide, by decide, ?_⟩
  intro txt
  simp [Title.gen_ansi, make_escape]

/-- C2: the emission gate emits exactly when the policy is `force`, or the
policy is `auto` and the destination is interactive; `never` never emits; a
stream that is neither `std::cout` nor `std::cerr` is decided by the generic
`stream_policy` with the interactivity flag fixed to `false` (so `auto` on an
unrecognized stream never emits); and a suppressed insertion delivers no bytes
to the destination. -/
theorem C2_emission_gate :
    (∀ (p : tty.policy) (b : Bool),
        tty.emit_policy p b = true ↔ (p = tty.policy.force ∨ (p = tty.policy.auto_ ∧ b = true)))
  ∧ (∀ b : Bool, tty.emit_policy tty.policy.never b = false)
  ∧ (∀ st : tty.state, tty.emit_ansi st tty.ostream.other = tty.emit_policy st.stream_policy false)
  ∧ (∀ st : tty.state, st.stream_policy = tty.policy.auto_ →
        tty.emit_ansi st tty.ostream.other = false)
  ∧ (∀ (st : tty.state) (os : tty.ostream) (ao : List Char),
        tty.emit_ansi st os = false → stream_insert st os ao = []) := by
  refine ⟨?_, ?_, ?_, ?_, ?_⟩
  · intro p b
    cases p <;> cases b <;> simp [tty.emit_policy]
  · intro b
    cases b <;> rfl
  · intro st
    rfl
  · intro st h
    simp [tty.emit_ansi, tty.emit_policy, h]
  · intro st os ao h
    simp [stream_insert, h]

/-- Closed instance of C2: a stream that is neither `std::cout` nor `std::cerr`
under the default `auto` policy receives no bytes. -/
theorem C2_emission_gate_witness :
    tty.emit_ansi ⟨tty.policy.auto_, tty.policy.auto_, tty.policy.auto_, true, true⟩
      tty.ostream.other = false
  ∧ stream_insert ⟨tty.policy.force, tty.policy.force, tty.policy.never, true, true⟩
      tty.ostream.other (Code 31) = [] := by
  constructor
  · exact C2_emission_gate.2.2.2.1 _ rfl
  · exact C2_emission_gate.2.2.2.2 _ _ _ (by decide)

/-- C7: the named 4-bit colors carry exactly the SGR codes the spec fixes —
`red` (text) 31, `bright_red` (text) 91, `red` (fill) 41, `bright_red` (fill)
101, `preset` 39/49 — and generally the eight base text colors carry 30–37, the
bright text colors 90–97, with the fill role adding 10 to each. -/
theorem C7_color4_codes :
    (Color4.red target.foreground = Code 31)
  ∧ (Color4.bright_red target.foreground = Code 91)
  ∧ (Color4.red target.background = Code 41)
  ∧ (Color4.bright_red target.background = Code 101)
  ∧ (Color4.preset target.foreground = Code 39)
  ∧ (Color4.preset target.background = Code 49)
  ∧ ([Color4.black, Color4.red, Color4.green, Color4.yellow,
      Color4.blue, Color4.magenta, Color4.cyan, Color4.white].map
        (fun c => c target.foreground)
      = (List.range 8).map (fun k => Code (30 + k)))
  ∧ ([Color4.bright_black, Color4.bright_red, Color4.bright_green, Color4.bright_yellow,
      Color4.bright_blue, Color4.bright_magenta, Color4.bright_cyan, Color4.bright_white].map
        (fun c => c target.foreground)
      = (List.range 8).map (fun k => Code (90 + k)))
  ∧ ([Color4.black, Color4.red, Color4.green, Color4.yellow,
      Color4.blue, Color4.magenta, Color4.cyan, Color4.white].map
        (fun c => c target.background)
      = (List.range 8).map (fun k => Code (30 + 10 + k)))
  ∧ ([Color4.bright_black, Color4.bright_red, Color4.bright_green, Color4.bright_yellow,
      Color4.bright_blue, Color4.bright_magenta, Color4.bright_cyan, Color4.bright_white].map
        (fun c => c target.background)
      = (List.range 8).map (fun k => Code (90 + 10 + k))) := by
  refine ⟨rfl, rfl, rfl, rfl, rfl, rfl, ?_, ?_, ?_, ?_⟩ <;> decide

end AnsiEscape

namespace AnsiEscape

/-- C3: for every `R`, `G`, `B` in `[0, 255]`, the 24-bit builder produces
exactly `ESC [ 38 ; 2 ; R ; G ; B m` for the text role and
`ESC [ 48 ; 2 ; R ; G ; B m` for the fill role (followed by the NUL sentinel of
the literal), the channels rendered in standard decimal with no leading zeros
(`Nat.repr`). -/
theorem C3_color24_exact_bytes (r g b : Nat) (hr : r < 256) (hg : g < 256) (hb : b < 256) :
    Color24.gen_ansi target.foreground r g b
      = escChar :: '[' :: '3' :: '8' :: ';' :: '2' :: ';' ::
          ((Nat.repr r).data ++ ';' :: (Nat.repr g).data ++ ';' :: (Nat.repr b).data
            ++ ['m', nulChar])
  ∧ Color24.gen_ansi target.background r g b
      = escChar :: '[' :: '4' :: '8' :: ';' :: '2' :: ';' ::
          ((Nat.repr r).data ++ ';' :: (Nat.repr g).data ++ ';' :: (Nat.repr b).data
            ++ ['m', nulChar]) := by
  have e38 : int_to_chars 38 = ['3', '8'] := by decide
  have e48 : int_to_chars 48 = ['4', '8'] := by decide
  have er := int_to_chars_eq_repr r hr
  have eg := int_to_chars_eq_repr g hg
  have eb := int_to_chars_eq_repr b hb
  constructor <;>
    simp [Color24.gen_ansi, make_escape, target.val, e38, e48, er, eg, eb]

/-- Closed instance of C3 at `(R, G, B) = (255, 0, 0)` for the text role. -/
theorem C3_color24_exact_bytes_witness :
    Color24.gen_ansi target.foreground 255 0 0
      = escChar :: '[' :: '3' :: '8' :: ';' :: '2' :: ';' ::
          ((Nat.repr 255).data ++ ';' :: (Nat.repr 0).data ++ ';' :: (Nat.repr 0).data
            ++ ['m', nulChar]) :=
  (C3_color24_exact_bytes 255 0 0 (by decide) (by decide) (by decide)).1

/-- C6: for every palette index in `[0, 255]`, the 8-bit builder produces
exactly `ESC [ 38 ; 5 ; idx m` (text) / `ESC [ 48 ; 5 ; idx m` (fill) with the
index in decimal, and the precomputed 256-entry table selects, at every index,
exactly the sequence on-demand formatting of that index produces. -/
theorem C6_color8_exact_bytes (i : Nat) (hi : i < 256) :
    Color8.mk target.foreground i
      = escChar :: '[' :: '3' :: '8' :: ';' :: '5' :: ';' ::
          ((Nat.repr i).data ++ ['m', nulChar])
  ∧ Color8.mk target.background i
      = escChar :: '[' :: '4' :: '8' :: ';' :: '5' :: ';' ::
          ((Nat.repr i).data ++ ['m', nulChar])
  ∧ (∀ t : target, Color8.mk t i = Color8.gen_ansi t i) := by
  have e38 : int_to_chars 38 = ['3', '8'] := by decide
  have e48 : int_to_chars 48 = ['4', '8'] := by decide
  have ei := int_to_chars_eq_repr i hi
  refine ⟨?_, ?_, fun t => color8_palette_sound t i hi⟩ <;>
    rw [color8_palette_sound _ i hi] <;>
    simp [Color8.gen_ansi, make_escape, target.val, e38, e48, ei]

/-- Closed instance of C6 at index 196. -/
theorem C6_color8_exact_bytes_witness :
    Color8.mk target.foreground 196
      = escChar :: '[' :: '3' :: '8' :: ';' :: '5' :: ';' ::
          ((Nat.repr 196).data ++ ['m', nulChar]) :=
  (C6_color8_exact_bytes 196 (by decide)).1

/-- C9: every escape literal the builders produce — SGR codes (4-bit colors,
styles, reset), 8-bit palette colors, 24-bit colors, erase-display, window
titles — begins with the escape byte 0x1B and ends with the family's terminator
(`m`, `J`, or BEL) followed by the NUL sentinel.  (The literals are `constexpr`
values with no mutating interface, so they are fixed at construction; in this
pure model that is inherent.) -/
theorem C9_escape_invariant :
    (∀ v : Nat, (Code v).head? = some escChar ∧ ['m', nulChar] <:+ Code v)
  ∧ (∀ (v : Nat) (F : Char), (gen_ansi v F).head? = some escChar
        ∧ [F, nulChar] <:+ gen_ansi v F)
  ∧ (∀ (t : target) (i : Nat), i < 256 →
        (Color8.mk t i).head? = some escChar ∧ ['m', nulChar] <:+ Color8.mk t i)
  ∧ (∀ (t : target) (r g b : Nat),
        (Color24.gen_ansi t r g b).head? = some escChar
          ∧ ['m', nulChar] <:+ Color24.gen_ansi t r g b)
  ∧ (clear.head? = some escChar ∧ ['J', nulChar] <:+ clear)
  ∧ (∀ txt : List Char,
        (Title.gen_ansi txt).head? = some escChar
          ∧ [belChar, nulChar] <:+ Title.gen_ansi txt) := by
  have key : ∀ (intro fin : Char) (payload : List Char),
      (make_escape intro fin payload).head? = some escChar
        ∧ [fin, nulChar] <:+ make_escape intro fin payload := by
    intro intro fin payload
    refine ⟨rfl, ⟨escChar :: intro :: payload, ?_⟩⟩
    simp [make_escape]
  refine ⟨fun v => key _ _ _, fun v F => key _ _ _, ?_, fun t r g b => key _ _ _,
    key _ _ _, fun txt => key _ _ _⟩
  intro t i hi
  rw [color8_palette_sound t i hi]
  exact key _ _ _

/-- Closed instance of C9: the 8-bit palette literal at index 7 and the title
literal for "hi" satisfy the invariant. -/
theorem C9_escape_invariant_witness :
    ((Color8.mk target.foreground 7).head? = some escChar
      ∧ ['m', nulChar] <:+ Color8.mk target.foreground 7)
  ∧ ((Title.gen_ansi ['h', 'i']).head? = some escChar
      ∧ [belChar, nulChar] <:+ Title.gen_ansi ['h', 'i']) :=
  ⟨C9_escape_invariant.2.2.1 target.foreground 7 (by decide),
   C9_escape_invariant.2.2.2.2.2 ['h', 'i']⟩

end AnsiEscape

namespace AnsiEscape

/-- C4: for every 7-character input `#RRGGBB`, parsing then encoding as a
24-bit color yields exactly the bytes of the color built directly from the
three channel values `16*hi + lo`; and for every 4-character input `#RGB`,
each channel nibble `d` parses to the byte `d * 17`.  (Stated for arbitrary
characters; on hex digits `hex_digit` is the nibble value, which is the
claim's case.) -/
theorem C4_hex_round_trip (t : target) (c1 c2 c3 c4 c5 c6 d1 d2 d3 : Char) :
    Color24.ofHex t ['#', c1, c2, c3, c4, c5, c6]
      = some (Color24.gen_ansi t
          (16 * Color24.hex_digit c1 + Color24.hex_digit c2)
          (16 * Color24.hex_digit c3 + Color24.hex_digit c4)
          (16 * Color24.hex_digit c5 + Color24.hex_digit c6))
  ∧ Color24.ofHex t ['#', d1, d2, d3]
      = some (Color24.gen_ansi t
          (Color24.hex_digit d1 * 17) (Color24.hex_digit d2 * 17) (Color24.hex_digit d3 * 17)) := by
  have hx := hex_digit_lt_16
  have m1 : ∀ a b : Char,
      (Color24.hex_digit a * 16 + Color24.hex_digit b) % 256
        = 16 * Color24.hex_digit a + Color24.hex_digit b := by
    intro a b
    have := hx a
    have := hx b
    omega
  have m2 : ∀ a : Char, (Color24.hex_digit a * 17) % 256 = Color24.hex_digit a * 17 := by
    intro a
    have := hx a
    omega
  constructor <;>
    simp [Color24.ofHex, Color24.parse, List.getD, m1, m2]

/-- C5: any input that does not start with `'#'` or whose length is neither 7
(`#RRGGBB`) nor 4 (`#RGB`) makes `Color24::parse` hit one of its two `assert`s
— the defined fatal error behavior, modelled as `none` — instead of producing
some differently-shaped escape sequence; in particular `"123"`, `"#12"` and
`"nothex"` do. -/
theorem C5_malformed_hex_asserts :
    (∀ s : List Char,
        (s.getD 0 nulChar ≠ '#' ∨ (s.length ≠ 7 ∧ s.length ≠ 4)) →
        Color24.parse s = none)
  ∧ (∀ t : target,
        Color24.ofHex t "123".data = none
      ∧ Color24.ofHex t "#12".data = none
      ∧ Color24.ofHex t "nothex".data = none) := by
  constructor
  · intro s hs
    unfold Color24.parse
    rcases hs with h | ⟨h7, h4⟩
    · rw [if_pos h]
    · by_cases h0 : s.getD 0 nulChar ≠ '#'
      · rw [if_pos h0]
      · rw [if_neg h0, if_neg h7, if_neg h4]
  · intro t
    cases t <;> exact ⟨by decide, by decide, by decide⟩

/-- Closed instance of C5: `"123"` (no `'#'` prefix) fails the assertion. -/
theorem C5_malformed_hex_asserts_witness :
    Color24.parse "123".data = none :=
  C5_malformed_hex_asserts.1 "123".data (by decide)

/-- C8: the compile-time construction path (`consteval` constructor from a
character-array literal, which includes the trailing `'\0'` and calls
`parse(hex, L - 1)`) and the run-time path (`explicit` constructor from a
`std::string_view`, which calls `parse(data, size)`) agree on every common
input: for any text of length 7 or 4, the two constructors produce identical
results, hence byte-identical escape sequences on every valid hex literal. -/
theorem C8_ctor_paths_agree (t : target) (s : List Char)
    (h : s.length = 7 ∨ s.length = 4) :
    Color24.ofHexLit t (s ++ [nulChar]) = Color24.ofHex t s := by
  unfold Color24.ofHexLit Color24.ofHex
  have hlen : (s ++ [nulChar]).length = s.length + 1 := by simp
  rw [if_pos (by omega)]
  have htake : (s ++ [nulChar]).take ((s ++ [nulChar]).length - 1) = s := by
    rw [hlen]
    exact List.take_left s [nulChar]
  rw [htake]

/-- Closed instance of C8 at the literal `"#ff0000"`. -/
theorem C8_ctor_paths_agree_witness :
    Color24.ofHexLit target.foreground ("#ff0000".data ++ [nulChar])
      = Color24.ofHex target.foreground "#ff0000".data :=
  C8_ctor_paths_agree target.foreground "#ff0000".data (by decide)

/-- C10: a string with the `'#'` prefix and a valid length (7 or 4) always
parses — the `hex_digit` lambda maps every non-hexadecimal character to the
digit value 0 — so e.g. `"#zzzzzz"` still produces the well-formed 24-bit
escape for (0, 0, 0). -/
theorem C10_nonhex_digit_zero :
    (∀ c : Char,
        ¬((48 ≤ c.toNat ∧ c.toNat ≤ 57) ∨ (97 ≤ c.toNat ∧ c.toNat ≤ 102)
          ∨ (65 ≤ c.toNat ∧ c.toNat ≤ 70)) →
        Color24.hex_digit c = 0)
  ∧ (∀ s : List Char, s.getD 0 nulChar = '#' → s.length = 7 ∨ s.length = 4 →
        ∃ rgb, Color24.parse s = some rgb)
  ∧ (∀ t : target, Color24.ofHex t "#zzzzzz".data = some (Color24.gen_ansi t 0 0 0)) := by
  refine ⟨?_, ?_, ?_⟩
  · intro c hc
    unfold Color24.hex_digit
    split_ifs with h1 h2 h3 <;> omega
  · intro s h0 hlen
    unfold Color24.parse
    rw [if_neg (fun hh => hh h0)]
    rcases hlen with h7 | h4
    · rw [if_pos h7]
      exact ⟨_, rfl⟩
    · rw [if_neg (by omega), if_pos h4]
      exact ⟨_, rfl⟩
  · intro t
    cases t <;> decide

/-- Closed instance of C10: `'z'` is not a hex digit and maps to 0, and
`"#zzzzzz"` parses successfully. -/
theorem C10_nonhex_digit_zero_witness :
    Color24.hex_digit 'z' = 0 ∧ ∃ rgb, Color24.parse "#zzzzzz".data = some rgb :=
  ⟨C10_nonhex_digit_zero.1 'z' (by decide),
   C10_nonhex_digit_zero.2.1 "#zzzzzz".data (by decide) (by decide)⟩

end AnsiEscape
